import Mathlib

/-!
Shallow embedding of the etl_flow ingestion pipeline
(src/etl_flow/etl_job.py and src/etl_flow/helper_functions/helper_functions.py),
together with the SQLite behaviours the code relies on: connection-scoped
foreign-key enforcement (off by default on a fresh connection), per-connection
transactions with commit/rollback, and the three-table store layout
sessions / events / event_parents.

The DDL (sql_statements["schema_sql"] in sql.yaml) and the JSON Schema
(json/schema.json) are not part of the source tree; the definitions that
depend on them are modelled from the spec and marked as such.
-/

namespace EtlFlow

/-- A JSON scalar value as it appears in a snapshot row (json.loads output). -/
inductive Value where
  | str (s : String)
  | int (n : Int)
  | null
deriving DecidableEq

/-- A JSON row object: an ordered list of (field name, value) pairs.
Python dicts (and json.loads) preserve the serialized field order, which is
what `row.values()` iterates over. -/
abbrev Row := List (String × Value)

/-- A parsed snapshot document: top level maps table name to its row list. -/
abbrev Snapshot := List (String × List Row)

/-- Python `tuple(row.values())` from etl_job.py line 193: the parameters bound to the
insert statement are the row's values in serialized order; field names are
never consulted. -/
def rowParams (row : Row) : List Value := row.map Prod.snd

/-- Python `data.get(table_name, [])` from etl_job.py line 191. -/
def lookupTable (data : Snapshot) (t : String) : List Row :=
  match data.find? (fun p => p.1 == t) with
  | some p => p.2
  | none => []

/-- A row of the sessions table: `sessions(id PK, start_ts, metadata)`. -/
structure SessionRow where
  id : Value
  start_ts : Value
  metadata : Value
deriving DecidableEq

/-- A row of the events table:
`events(id PK, ts, session_id FK, seq, kind, actor, payload, text, metrics)`. -/
structure EventRow where
  id : Value
  ts : Value
  session_id : Value
  seq : Value
  kind : Value
  actor : Value
  payload : Value
  text : Value
  metrics : Value
deriving DecidableEq

/-- A row of the event_parents table:
`event_parents(child_id FK, parent_id FK, PK(child_id, parent_id))`. -/
structure EdgeRow where
  child_id : Value
  parent_id : Value
deriving DecidableEq

/-- The three-table store (the contents of local.db). -/
structure DB where
  sessions : List SessionRow
  events : List EventRow
  event_parents : List EdgeRow
deriving DecidableEq

/-- A store with no rows. -/
def emptyDB : DB := ⟨[], [], []⟩

/-- The three parameterized insert statements of sql.yaml used by run_job. -/
inductive Stmt where
  | insert_sessions
  | insert_events
  | insert_event_parents
deriving DecidableEq

/-- SQLite errors surfaced by `con.execute` on an INSERT. -/
inductive SqlError where
  | constraintViolation
  | paramCountMismatch
deriving DecidableEq

/-- One execution of the sessions insert statement. The PRIMARY KEY on `id`
is enforced on every connection; there is no foreign key on sessions. -/
def insertSessionRow (p : List Value) (db : DB) : Except SqlError DB :=
  match p with
  | [i, st, md] =>
      if db.sessions.any (fun r => r.id == i) then .error .constraintViolation
      else .ok { db with sessions := db.sessions ++ [⟨i, st, md⟩] }
  | _ => .error .paramCountMismatch

/-- One execution of the events insert statement. The PRIMARY KEY on `id` is
always enforced; the foreign key `session_id → sessions.id` is checked only
when the connection has foreign-key enforcement on (`fk`). -/
def insertEventRow (fk : Bool) (p : List Value) (db : DB) : Except SqlError DB :=
  match p with
  | [i, ts, sid, seq, kind, actor, payload, text, metrics] =>
      if db.events.any (fun r => r.id == i) then .error .constraintViolation
      else if fk && !(db.sessions.any (fun r => r.id == sid)) then
        .error .constraintViolation
      else .ok { db with
        events := db.events ++ [⟨i, ts, sid, seq, kind, actor, payload, text, metrics⟩] }
  | _ => .error .paramCountMismatch

/-- One execution of the event_parents insert statement. The composite
PRIMARY KEY (child_id, parent_id) is always enforced; the two foreign keys
into events are checked only when the connection has enforcement on. -/
def insertEdgeRow (fk : Bool) (p : List Value) (db : DB) : Except SqlError DB :=
  match p with
  | [c, pa] =>
      if db.event_parents.any (fun r => r.child_id == c && r.parent_id == pa) then
        .error .constraintViolation
      else if fk && !((db.events.any (fun r => r.id == c)) &&
                      (db.events.any (fun r => r.id == pa))) then
        .error .constraintViolation
      else .ok { db with event_parents := db.event_parents ++ [⟨c, pa⟩] }
  | _ => .error .paramCountMismatch

/-- Dispatch of an insert statement to its table. -/
def execInsert (fk : Bool) (stmt : Stmt) (p : List Value) (db : DB) :
    Except SqlError DB :=
  match stmt with
  | .insert_sessions => insertSessionRow p db
  | .insert_events => insertEventRow fk p db
  | .insert_event_parents => insertEdgeRow fk p db

/-- A SQLite connection: the durable (committed) state of the database file,
the connection's in-transaction view (`pending`), the connection-scoped
foreign-key enforcement flag, and whether the connection has been closed. -/
structure Conn where
  committed : DB
  pending : DB
  fk : Bool
  closed : Bool
deriving DecidableEq

/-- Model of `sqlite3.connect(db_path)`: a fresh connection sees the committed state
and has foreign-key enforcement OFF — SQLite's per-connection default. -/
def connect (db : DB) : Conn := ⟨db, db, false, false⟩

/-- Model of `con.execute("PRAGMA foreign_keys = ON;")` as issued by create_db
(helper_functions.py line 110) on its own connection only. -/
def Conn.enableForeignKeys (c : Conn) : Conn := { c with fk := true }

/-- Model of `con.execute(insert_statement, params)`: updates the uncommitted view, or
fails, handing back the connection as it stood at the failure. -/
def Conn.executeInsert (c : Conn) (stmt : Stmt) (p : List Value) :
    Except (Conn × SqlError) Conn :=
  match execInsert c.fk stmt p c.pending with
  | .ok db2 => .ok { c with pending := db2 }
  | .error e => .error (c, e)

/-- Model of `con.commit()`: publish the pending view as the durable state. -/
def Conn.commitTx (c : Conn) : Conn := { c with committed := c.pending }

/-- Model of `con.rollback()`: discard the pending view, back to the durable state. -/
def Conn.rollbackTx (c : Conn) : Conn := { c with pending := c.committed }

/-- Model of `con.close()`. -/
def Conn.closeConn (c : Conn) : Conn := { c with closed := true }

/-- The loop `for row in rows: con.execute(insert_statement, tuple(row.values()))`
from etl_job.py lines 192–193. -/
def execRows (c : Conn) (stmt : Stmt) (rows : List Row) :
    Except (Conn × SqlError) Conn :=
  match rows with
  | [] => .ok c
  | r :: rs =>
      match c.executeInsert stmt (rowParams r) with
      | .ok c2 => execRows c2 stmt rs
      | .error pe => .error pe

/-- The observable outcome of one insert_to_db call: the durable store after
the call, whether the call succeeded (or raised), whether the connection was
closed, and the connection's final foreign-key enforcement flag. -/
structure InsertToDbResult where
  db : DB
  ok : Bool
  connClosed : Bool
  fkEnforced : Bool
deriving DecidableEq

/-- insert_to_db (etl_job.py lines 162–201): opens a fresh connection (which
never re-asserts the foreign-key pragma), inserts `data.get(table_name, [])`
row by row binding `tuple(row.values())`, commits on success; on any exception
it rolls back, re-raises, and the `finally` block closes the connection. -/
def insert_to_db (data : Snapshot) (table_name : String) (stmt : Stmt)
    (db : DB) : InsertToDbResult :=
  match execRows (connect db) stmt (lookupTable data table_name) with
  | .ok c1 =>
      ⟨(c1.commitTx.closeConn).committed, true,
       (c1.commitTx.closeConn).closed, (c1.commitTx.closeConn).fk⟩
  | .error (c1, _) =>
      ⟨(c1.rollbackTx.closeConn).committed, false,
       (c1.rollbackTx.closeConn).closed, (c1.rollbackTx.closeConn).fk⟩

/-- A storage object (Azure blob) as seen through `container_client.list_blobs`:
its name, its creation time, and the snapshot document it holds. -/
structure Blob where
  name : String
  creation_time : Nat
  content : Snapshot
deriving DecidableEq

/-- Error outcomes of the locator/fetcher stage. `attributeErrorNoneName` is
what the source actually raises on an empty listing (`latest_blob.name` with
`latest_blob = None`); `notFoundError` transcribes the spec's error taxonomy
(§7) for comparison — the source defines no such class. -/
inductive FetchError where
  | attributeErrorNoneName
  | notFoundError
deriving DecidableEq

/-- The first list leads the second: character-level name matching. -/
def leadsWith : List Char → List Char → Bool
  | [], _ => true
  | _ :: _, [] => false
  | p :: ps, c :: cs => p == c && leadsWith ps cs

/-- The string `s` starts with the string `pat`. -/
def strLeadsWith (s pat : String) : Bool := leadsWith pat.data s.data

/-- Model of `container_client.list_blobs(name_starts_with="backup_")`: the objects
whose name starts with the given string, in listing order. -/
def list_blobs (container : List Blob) (name_starts_with : String) : List Blob :=
  container.filter (fun b => strLeadsWith b.name name_starts_with)

/-- Python's `max(blobs, key=..., default=None)`: None on an empty iterable,
otherwise a left fold that replaces the current best only on strictly greater
key — ties keep the earlier element, so the result is deterministic. -/
def pyMax (key : Blob → Nat) : List Blob → Option Blob
  | [] => none
  | x :: xs => some (xs.foldl (fun acc b => if key b > key acc then b else acc) x)

/-- download_latest_json (etl_job.py lines 96–127): lists blobs with name
starting in "backup_", takes the one of greatest creation time, and downloads
its content into a `NamedTemporaryFile(delete=False)`. When no blob matches,
`max` yields None and `latest_blob.name` raises AttributeError. -/
def download_latest_json (container : List Blob) : Except FetchError Blob :=
  match pyMax (fun b => b.creation_time) (list_blobs container "backup_") with
  | none => .error .attributeErrorNoneName
  | some b => .ok b

/-- Is this value a JSON string? -/
def Value.isStr : Value → Bool
  | .str _ => true
  | _ => false

/-- Is this value a JSON integer? -/
def Value.isInt : Value → Bool
  | .int _ => true
  | _ => false

/-- Field lookup by name in a row object (jsonschema checks by name). -/
def lookupField (row : Row) (name : String) : Option Value :=
  (row.find? (fun p => p.1 == name)).map Prod.snd

/-- The named field is present and is a string. -/
def fieldIsStr (row : Row) (name : String) : Bool :=
  match lookupField row name with
  | some v => v.isStr
  | none => false

/-- The named field is present and is an integer. -/
def fieldIsInt (row : Row) (name : String) : Bool :=
  match lookupField row name with
  | some v => v.isInt
  | none => false

/-- Modelled from the spec: the enumerated event kinds of the structural
contract (json/schema.json, which is not under src/); §3 names
"user_prompt" and "assistant_out", the two kinds the source's mock data uses. -/
def eventKinds : List String := ["user_prompt", "assistant_out"]

/-- Modelled from the spec: a sessions row of the contract — required fields
id, start_ts, metadata, all strings. -/
def validSessionRow (row : Row) : Bool :=
  fieldIsStr row "id" && fieldIsStr row "start_ts" && fieldIsStr row "metadata"

/-- Modelled from the spec: an events row of the contract — required fields
with their types, and `kind` constrained to the enumerated event kinds. -/
def validEventRow (row : Row) : Bool :=
  fieldIsStr row "id" && fieldIsStr row "ts" && fieldIsStr row "session_id" &&
  fieldIsInt row "seq" &&
  (match lookupField row "kind" with
   | some (.str k) => eventKinds.contains k
   | _ => false) &&
  fieldIsStr row "actor" && fieldIsStr row "payload" &&
  fieldIsStr row "text" && fieldIsStr row "metrics"

/-- Modelled from the spec: an event_parents row of the contract — required
fields child_id and parent_id, both strings. -/
def validEdgeRow (row : Row) : Bool :=
  fieldIsStr row "child_id" && fieldIsStr row "parent_id"

/-- Modelled from the spec: validate_json_string's contract check
(json/schema.json is not under src/) — each of the three tables is present,
and every row has its required fields, field types and enumerated values.
Pure and deterministic; touches no store state. -/
def validate (data : Snapshot) : Bool :=
  data.any (fun p => p.1 == "sessions") &&
  data.any (fun p => p.1 == "events") &&
  data.any (fun p => p.1 == "event_parents") &&
  (lookupTable data "sessions").all validSessionRow &&
  (lookupTable data "events").all validEventRow &&
  (lookupTable data "event_parents").all validEdgeRow

/-- Outcome of the three insert_to_db calls of run_job. -/
structure LoadResult where
  db : DB
  ok : Bool
deriving DecidableEq

/-- The load phase of run_job (etl_job.py lines 231–233): three successive
insert_to_db calls — sessions, events, event_parents — each on its own
connection with its own commit; the first exception aborts the run. -/
def load (snap : Snapshot) (db : DB) : LoadResult :=
  let r1 := insert_to_db snap "sessions" .insert_sessions db
  if r1.ok then
    let r2 := insert_to_db snap "events" .insert_events r1.db
    if r2.ok then
      let r3 := insert_to_db snap "event_parents" .insert_event_parents r2.db
      ⟨r3.db, r3.ok⟩
    else ⟨r2.db, false⟩
  else ⟨r1.db, false⟩

/-- Observable outcome of one run_job call: the durable store, success,
the staging temporary files still existing when the run ends, and whether
any insert_to_db (load) call was made. -/
structure RunJobResult where
  db : DB
  ok : Bool
  stagingFiles : List Snapshot
  loadInvoked : Bool
deriving DecidableEq

/-- run_job (etl_job.py lines 203–236): download the latest snapshot into a
staging temporary file (created with delete=False), validate it, then run the
three per-table inserts. No statement in run_job — nor anywhere downstream —
deletes the staging file, so it is still present at the end of every path. -/
def run_job (container : List Blob) (db : DB) : RunJobResult :=
  match download_latest_json container with
  | .error _ => ⟨db, false, [], false⟩
  | .ok blob =>
      if validate blob.content then
        let r := load blob.content db
        ⟨r.db, r.ok, [blob.content], true⟩
      else
        ⟨db, false, [blob.content], false⟩

/-- A schema object as recorded in sqlite_master: its kind ("table" or
"index") and its name. -/
structure SchemaObj where
  kind : String
  name : String
deriving DecidableEq

/-- Modelled from the spec: the objects created by sql.yaml's schema_sql
(not under src/) — the three tables plus the two secondary indices named by
the tests (events_session_ts, events_session_kind). -/
def schemaObjects : List SchemaObj :=
  [⟨"table", "sessions"⟩, ⟨"table", "events"⟩, ⟨"table", "event_parents"⟩,
   ⟨"index", "events_session_ts"⟩, ⟨"index", "events_session_kind"⟩]

/-- Modelled from the spec: one CREATE ... IF NOT EXISTS statement — adds the
object only when it is not already present. -/
def applyIfNotExists (objs : List SchemaObj) (o : SchemaObj) : List SchemaObj :=
  if o ∈ objs then objs else objs ++ [o]

/-- Observable outcome of create_db: the schema objects of the store, and the
foreign-key flag and closed flag of the connection create_db itself opened. -/
structure CreateDbResult where
  schema : List SchemaObj
  fkEnforced : Bool
  connClosed : Bool
deriving DecidableEq

/-- create_db (helper_functions.py lines 87–126): opens a connection, issues
`PRAGMA foreign_keys = ON;` on that connection (line 110), applies the
idempotent DDL, and closes the connection in a `finally` block. -/
def create_db (schema : List SchemaObj) : CreateDbResult :=
  ⟨schemaObjects.foldl applyIfNotExists schema, true, true⟩

/-- Modelled from the spec: a DELETE on events over a connection with
foreign-key enforcement on. The DDL is in sql.yaml (not under src/); per §3
invariant 3 and test_event_parents_foreign_keys, `event_parents.parent_id`
carries ON DELETE CASCADE, so deleting an event removes that event row and
every edge naming it as parent, and nothing else; the spec leaves
delete-by-child semantics unspecified, so no action is taken on child edges. -/
def deleteEvent (db : DB) (eid : Value) : DB :=
  { db with
    events := db.events.filter (fun r => !(r.id == eid)),
    event_parents := db.event_parents.filter (fun r => !(r.parent_id == eid)) }

/-! Concrete snapshot data used by counterexamples and witnesses. -/

/-- A well-formed sessions row, fields in schema order. -/
def sessRow1 : Row :=
  [("id", .str "s1"), ("start_ts", .str "t0"), ("metadata", .str "md")]

/-- A well-formed events row for session s1, fields in schema order. -/
def evtRow1 : Row :=
  [("id", .str "e1"), ("ts", .str "t1"), ("session_id", .str "s1"),
   ("seq", .int 1), ("kind", .str "user_prompt"), ("actor", .str "User"),
   ("payload", .str "md"), ("text", .str "hi"), ("metrics", .str "md")]

/-- A second well-formed events row for session s1. -/
def evtRow2 : Row :=
  [("id", .str "e2"), ("ts", .str "t2"), ("session_id", .str "s1"),
   ("seq", .int 1), ("kind", .str "assistant_out"), ("actor", .str "Assistant"),
   ("payload", .str "md"), ("text", .str "hello"), ("metrics", .str "md")]

/-- A well-formed lineage edge row: e2 replies to e1. -/
def edgeRow1 : Row := [("child_id", .str "e2"), ("parent_id", .str "e1")]

/-- A contract-valid snapshot: one session, two events, one edge. -/
def goodSnapshot : Snapshot :=
  [("sessions", [sessRow1]), ("events", [evtRow1, evtRow2]),
   ("event_parents", [edgeRow1])]

/-- A contract-valid snapshot whose edge table repeats the same edge twice:
valid for the structural contract, but the second copy violates the
composite primary key of event_parents at insert time. -/
def dupEdgeSnapshot : Snapshot :=
  [("sessions", [sessRow1]), ("events", [evtRow1, evtRow2]),
   ("event_parents", [edgeRow1, edgeRow1])]

/-- A snapshot that fails the contract: the sessions table is missing. -/
def invalidSnapshot : Snapshot :=
  [("events", [evtRow1]), ("event_parents", [])]

/-- An events row whose session reference names no existing session. -/
def danglingEvtRow : Row :=
  [("id", .str "e9"), ("ts", .str "t9"), ("session_id", .str "ghost"),
   ("seq", .int 1), ("kind", .str "user_prompt"), ("actor", .str "User"),
   ("payload", .str "md"), ("text", .str "??"), ("metrics", .str "md")]

/-- A snapshot carrying only the dangling events row. -/
def danglingSnapshot : Snapshot := [("events", [danglingEvtRow])]

/-- A sessions table snapshot repeating the same id twice: the second copy
violates the primary key of sessions at insert time. -/
def dupSessionSnapshot : Snapshot := [("sessions", [sessRow1, sessRow1])]

/-- The two storage objects of the spec's end-to-end example. -/
def demoBlob1 : Blob := ⟨"backup_20240101T000000", 20240101000000, goodSnapshot⟩

/-- The later of the two storage objects of the spec's end-to-end example. -/
def demoBlob2 : Blob := ⟨"backup_20240102T000000", 20240102000000, goodSnapshot⟩

/-- The container of the spec's end-to-end example. -/
def demoContainer : List Blob := [demoBlob1, demoBlob2]

/-- A store populated the way insert_mock_data populates it for one session:
two events, the second replying to the first. -/
def demoDB : DB :=
  ⟨[⟨.str "s1", .str "t0", .str "md"⟩],
   [⟨.str "e1", .str "t1", .str "s1", .int 1, .str "user_prompt", .str "User",
     .str "md", .str "hi", .str "md"⟩,
    ⟨.str "e2", .str "t2", .str "s1", .int 1, .str "assistant_out",
     .str "Assistant", .str "md", .str "hello", .str "md"⟩],
   [⟨.str "e2", .str "e1"⟩]⟩

/-- A blob whose snapshot repeats an edge row: schema-valid, constraint-violating. -/
def dupEdgeBlob : Blob := ⟨"backup_20240104T000000", 20240104000000, dupEdgeSnapshot⟩

/-- A blob whose snapshot fails the structural contract. -/
def invalidBlob : Blob := ⟨"backup_20240103T000000", 20240103000000, invalidSnapshot⟩

/-- A storage object whose name does not start with "backup_". -/
def otherBlob : Blob := ⟨"other_20240101T000000", 5, goodSnapshot⟩

-- Decidable equality for Except results, for concrete evaluation.
deriving instance DecidableEq for Except

/-! Helper lemmas about the connection model. -/

/-- A successful execute only changes the pending view of the connection. -/
theorem executeInsert_ok_inv (c c2 : Conn) (stmt : Stmt) (p : List Value)
    (h : c.executeInsert stmt p = .ok c2) :
    c2.committed = c.committed ∧ c2.fk = c.fk ∧ c2.closed = c.closed := by
  unfold Conn.executeInsert at h
  split at h
  · injection h with h
    subst h
    exact ⟨rfl, rfl, rfl⟩
  · simp at h

/-- A failed execute hands back the connection unchanged. -/
theorem executeInsert_error_inv (c c2 : Conn) (e : SqlError) (stmt : Stmt)
    (p : List Value) (h : c.executeInsert stmt p = .error (c2, e)) : c2 = c := by
  unfold Conn.executeInsert at h
  split at h
  · simp at h
  · simp only [Except.error.injEq, Prod.mk.injEq] at h
    exact h.1.symm

/-- The insert loop never touches the durable state, the foreign-key flag or
the closed flag of the connection, whether it succeeds or fails. -/
theorem execRows_inv (stmt : Stmt) (rows : List Row) (c : Conn) :
    (∀ c2, execRows c stmt rows = .ok c2 →
       c2.committed = c.committed ∧ c2.fk = c.fk ∧ c2.closed = c.closed) ∧
    (∀ c2 e, execRows c stmt rows = .error (c2, e) →
       c2.committed = c.committed ∧ c2.fk = c.fk ∧ c2.closed = c.closed) := by
  induction rows generalizing c with
  | nil =>
      refine ⟨?_, ?_⟩
      · intro c2 h
        unfold execRows at h
        injection h with h
        subst h
        exact ⟨rfl, rfl, rfl⟩
      · intro c2 e h
        unfold execRows at h
        simp at h
  | cons r rs ih =>
      refine ⟨?_, ?_⟩
      · intro c2 h
        unfold execRows at h
        cases hx : c.executeInsert stmt (rowParams r) with
        | ok c1 =>
            rw [hx] at h
            have h1 := executeInsert_ok_inv c c1 stmt (rowParams r) hx
            have h2 := (ih c1).1 c2 h
            exact ⟨h2.1.trans h1.1, h2.2.1.trans h1.2.1, h2.2.2.trans h1.2.2⟩
        | error pe =>
            rw [hx] at h
            simp at h
      · intro c2 e h
        unfold execRows at h
        cases hx : c.executeInsert stmt (rowParams r) with
        | ok c1 =>
            rw [hx] at h
            have h1 := executeInsert_ok_inv c c1 stmt (rowParams r) hx
            have h2 := (ih c1).2 c2 e h
            exact ⟨h2.1.trans h1.1, h2.2.1.trans h1.2.1, h2.2.2.trans h1.2.2⟩
        | error pe =>
            obtain ⟨c3, e3⟩ := pe
            rw [hx] at h
            simp only [Except.error.injEq, Prod.mk.injEq] at h
            obtain ⟨h4, _⟩ := h
            have h5 := executeInsert_error_inv c c3 e3 stmt (rowParams r) hx
            subst h4
            rw [h5]
            exact ⟨rfl, rfl, rfl⟩

/-- Shared specification of one insert_to_db call: the connection is closed
on both exit paths, foreign-key enforcement stays off (the call never issues
the pragma), and on failure the durable store is exactly the input store. -/
theorem insert_to_db_conn_spec (data : Snapshot) (t : String) (stmt : Stmt)
    (db : DB) :
    (insert_to_db data t stmt db).connClosed = true ∧
    (insert_to_db data t stmt db).fkEnforced = false ∧
    ((insert_to_db data t stmt db).ok = false →
      (insert_to_db data t stmt db).db = db) := by
  unfold insert_to_db
  cases hx : execRows (connect db) stmt (lookupTable data t) with
  | ok c1 =>
      have h1 := (execRows_inv stmt (lookupTable data t) (connect db)).1 c1 hx
      refine ⟨rfl, ?_, ?_⟩
      · simpa [Conn.commitTx, Conn.closeConn, connect] using h1.2.1
      · intro h
        simp at h
  | error pe =>
      obtain ⟨c1, e⟩ := pe
      have h1 := (execRows_inv stmt (lookupTable data t) (connect db)).2 c1 e hx
      refine ⟨rfl, ?_, ?_⟩
      · simpa [Conn.rollbackTx, Conn.closeConn, connect] using h1.2.1
      · intro _
        simpa [Conn.rollbackTx, Conn.closeConn, connect] using h1.1

/-- A successful sessions insert changes only the sessions table. -/
theorem insertSessionRow_frame (p : List Value) (db db2 : DB)
    (h : insertSessionRow p db = .ok db2) :
    db2.events = db.events ∧ db2.event_parents = db.event_parents := by
  unfold insertSessionRow at h
  split at h
  · split at h
    · simp at h
    · injection h with h
      subst h
      exact ⟨rfl, rfl⟩
  · simp at h

/-- A successful events insert changes only the events table. -/
theorem insertEventRow_frame (fk : Bool) (p : List Value) (db db2 : DB)
    (h : insertEventRow fk p db = .ok db2) :
    db2.sessions = db.sessions ∧ db2.event_parents = db.event_parents := by
  unfold insertEventRow at h
  split at h
  · split at h
    · simp at h
    · split at h
      · simp at h
      · injection h with h
        subst h
        exact ⟨rfl, rfl⟩
  · simp at h

/-- Neither the sessions statement nor the events statement touches the
event_parents table. -/
theorem execInsert_parents_frame (fk : Bool) (stmt : Stmt) (p : List Value)
    (db db2 : DB) (hs : stmt ≠ Stmt.insert_event_parents)
    (h : execInsert fk stmt p db = .ok db2) :
    db2.event_parents = db.event_parents := by
  cases stmt with
  | insert_sessions => exact (insertSessionRow_frame p db db2 h).2
  | insert_events => exact (insertEventRow_frame fk p db db2 h).2
  | insert_event_parents => exact absurd rfl hs

/-- The insert loop for a non-edge statement leaves the pending view's
event_parents table unchanged. -/
theorem execRows_parents_frame (stmt : Stmt)
    (hs : stmt ≠ Stmt.insert_event_parents) (rows : List Row) :
    ∀ c c2 : Conn, execRows c stmt rows = .ok c2 →
      c2.pending.event_parents = c.pending.event_parents := by
  induction rows with
  | nil =>
      intro c c2 h
      unfold execRows at h
      injection h with h
      subst h
      rfl
  | cons r rs ih =>
      intro c c2 h
      unfold execRows at h
      cases hx : c.executeInsert stmt (rowParams r) with
      | ok c1 =>
          rw [hx] at h
          have h2 := ih c1 c2 h
          unfold Conn.executeInsert at hx
          rcases hy : execInsert c.fk stmt (rowParams r) c.pending with db2 | db2
          · rw [hy] at hx
            simp at hx
          · rw [hy] at hx
            injection hx with hx
            have h3 := execInsert_parents_frame c.fk stmt (rowParams r)
              c.pending db2 hs hy
            rw [h2, ← hx]
            exact h3
      | error pe =>
          rw [hx] at h
          simp at h

/-- An insert_to_db call with the sessions or events statement leaves the
durable event_parents table unchanged, whether it succeeds or fails. -/
theorem insert_to_db_parents_frame (data : Snapshot) (t : String) (stmt : Stmt)
    (db : DB) (hs : stmt ≠ Stmt.insert_event_parents) :
    (insert_to_db data t stmt db).db.event_parents = db.event_parents := by
  unfold insert_to_db
  cases hx : execRows (connect db) stmt (lookupTable data t) with
  | ok c1 =>
      have h2 := execRows_parents_frame stmt hs (lookupTable data t)
        (connect db) c1 hx
      simpa [Conn.commitTx, Conn.closeConn, connect] using h2
  | error pe =>
      obtain ⟨c1, e⟩ := pe
      have h1 := (execRows_inv stmt (lookupTable data t) (connect db)).2 c1 e hx
      simp only [Conn.rollbackTx, Conn.closeConn]
      rw [h1.1]
      rfl

/-! Helper lemmas about the idempotent DDL. -/

/-- Applying one IF NOT EXISTS statement keeps every existing object. -/
theorem applyIfNotExists_keeps (objs : List SchemaObj) (o x : SchemaObj)
    (hx : x ∈ objs) : x ∈ applyIfNotExists objs o := by
  unfold applyIfNotExists
  split
  · exact hx
  · exact List.mem_append_left _ hx

/-- Applying one IF NOT EXISTS statement makes its object present. -/
theorem applyIfNotExists_adds (objs : List SchemaObj) (o : SchemaObj) :
    o ∈ applyIfNotExists objs o := by
  unfold applyIfNotExists
  split
  · assumption
  · exact List.mem_append_right _ (List.mem_singleton.mpr rfl)

/-- Applying one IF NOT EXISTS statement for an object already present is a
no-op. -/
theorem applyIfNotExists_noop (objs : List SchemaObj) (o : SchemaObj)
    (h : o ∈ objs) : applyIfNotExists objs o = objs := if_pos h

/-- The DDL fold keeps every object of the starting schema. -/
theorem foldl_apply_keeps (l : List SchemaObj) :
    ∀ s : List SchemaObj, ∀ x ∈ s, x ∈ l.foldl applyIfNotExists s := by
  induction l with
  | nil => intro s x hx; exact hx
  | cons a l ih =>
      intro s x hx
      simp only [List.foldl_cons]
      exact ih _ x (applyIfNotExists_keeps s a x hx)

/-- After the DDL fold, every object of the DDL script is present. -/
theorem foldl_apply_mem (l : List SchemaObj) :
    ∀ s : List SchemaObj, ∀ o ∈ l, o ∈ l.foldl applyIfNotExists s := by
  induction l with
  | nil => intro s o ho; cases ho
  | cons a l ih =>
      intro s o ho
      simp only [List.foldl_cons]
      rcases List.mem_cons.mp ho with h | h
      · subst h
        exact foldl_apply_keeps l _ o (applyIfNotExists_adds s o)
      · exact ih _ o h

/-- The DDL fold is a no-op on a schema already holding every scripted
object. -/
theorem foldl_apply_noop (l : List SchemaObj) :
    ∀ s : List SchemaObj, (∀ o ∈ l, o ∈ s) → l.foldl applyIfNotExists s = s := by
  induction l with
  | nil => intro s _; rfl
  | cons a l ih =>
      intro s h
      simp only [List.foldl_cons]
      rw [applyIfNotExists_noop s a (h a (List.mem_cons_self a l))]
      exact ih s (fun o ho => h o (List.mem_cons_of_mem a ho))

/-- One IF NOT EXISTS statement never introduces a duplicate object. -/
theorem applyIfNotExists_nodup (objs : List SchemaObj) (o : SchemaObj)
    (h : objs.Nodup) : (applyIfNotExists objs o).Nodup := by
  unfold applyIfNotExists
  split
  · exact h
  · case _ hno =>
      simp only [List.nodup_append, List.nodup_singleton, true_and]
      exact ⟨h, by simpa [List.disjoint_singleton] using hno⟩

/-- The DDL fold never introduces a duplicate object. -/
theorem foldl_apply_nodup (l : List SchemaObj) :
    ∀ s : List SchemaObj, s.Nodup → (l.foldl applyIfNotExists s).Nodup := by
  induction l with
  | nil => intro s h; exact h
  | cons a l ih =>
      intro s h
      simp only [List.foldl_cons]
      exact ih _ (applyIfNotExists_nodup s a h)

/-! Helper lemma about Python's max over a listing. -/

/-- The fold underlying Python's max-by-key: the result is the start element
or a list element, its key dominates the start element's key, and it
dominates every list element's key. -/
theorem foldl_max_spec (key : Blob → Nat) (xs : List Blob) :
    ∀ x : Blob,
      (xs.foldl (fun acc b => if key b > key acc then b else acc) x = x ∨
        xs.foldl (fun acc b => if key b > key acc then b else acc) x ∈ xs) ∧
      key x ≤ key (xs.foldl (fun acc b => if key b > key acc then b else acc) x) ∧
      ∀ y ∈ xs, key y ≤ key (xs.foldl (fun acc b => if key b > key acc then b else acc) x) := by
  induction xs with
  | nil =>
      intro x
      exact ⟨Or.inl rfl, le_refl _, fun y hy => absurd hy (List.not_mem_nil y)⟩
  | cons a l ih =>
      intro x
      simp only [List.foldl_cons]
      by_cases hc : key a > key x
      · rw [if_pos hc]
        obtain ⟨hmem, hle, hall⟩ := ih a
        refine ⟨?_, ?_, ?_⟩
        · rcases hmem with h | h
          · exact Or.inr (by rw [h]; exact List.mem_cons_self a l)
          · exact Or.inr (List.mem_cons_of_mem a h)
        · exact le_trans (le_of_lt hc) hle
        · intro y hy
          rcases List.mem_cons.mp hy with h | h
          · subst h
            exact hle
          · exact hall y h
      · rw [if_neg hc]
        obtain ⟨hmem, hle, hall⟩ := ih x
        refine ⟨?_, ?_, ?_⟩
        · rcases hmem with h | h
          · exact Or.inl h
          · exact Or.inr (List.mem_cons_of_mem a h)
        · exact hle
        · intro y hy
          rcases List.mem_cons.mp hy with h | h
          · subst h
            exact le_trans (Nat.le_of_not_lt hc) hle
          · exact hall y h

/-- Unfolding lemma: the schema produced by create_db is the DDL fold. -/
theorem create_db_schema (s : List SchemaObj) :
    (create_db s).schema = schemaObjects.foldl applyIfNotExists s := rfl

/-! The claims. -/

/-- C1 counterexample: a contract-valid snapshot whose third table repeats an
edge (a composite-primary-key violation at insert time) makes the run fail,
yet the newly inserted session and event rows remain committed: the store is
not left unchanged, refuting atomicity of the load across the three tables. -/
theorem run_job_not_atomic_across_tables_cex :
    validate dupEdgeSnapshot = true ∧
    (run_job [dupEdgeBlob] emptyDB).ok = false ∧
    (run_job [dupEdgeBlob] emptyDB).db.sessions.length = 1 ∧
    (run_job [dupEdgeBlob] emptyDB).db.events.length = 2 ∧
    (run_job [dupEdgeBlob] emptyDB).db.event_parents = [] := by
  refine ⟨by decide, by decide, by decide, by decide, by decide⟩

/-- C1 amended: each insert_to_db call of the load commits its own table
independently. When the sessions and events inserts succeed and the
event_parents insert then fails, the load fails but leaves the store exactly
as it stood after the events commit: the first two tables keep their new
rows and only the event_parents table is unchanged from before the load. -/
theorem load_commits_per_table (snap : Snapshot) (db : DB)
    (h1 : (insert_to_db snap "sessions" Stmt.insert_sessions db).ok = true)
    (h2 : (insert_to_db snap "events" Stmt.insert_events
            (insert_to_db snap "sessions" Stmt.insert_sessions db).db).ok = true)
    (h3 : (insert_to_db snap "event_parents" Stmt.insert_event_parents
            (insert_to_db snap "events" Stmt.insert_events
              (insert_to_db snap "sessions" Stmt.insert_sessions db).db).db).ok
          = false) :
    (load snap db).ok = false ∧
    (load snap db).db =
      (insert_to_db snap "events" Stmt.insert_events
        (insert_to_db snap "sessions" Stmt.insert_sessions db).db).db ∧
    (load snap db).db.event_parents = db.event_parents := by
  have hroll := (insert_to_db_conn_spec snap "event_parents"
      Stmt.insert_event_parents
      (insert_to_db snap "events" Stmt.insert_events
        (insert_to_db snap "sessions" Stmt.insert_sessions db).db).db).2.2 h3
  have hf1 := insert_to_db_parents_frame snap "sessions" Stmt.insert_sessions
    db (by decide)
  have hf2 := insert_to_db_parents_frame snap "events" Stmt.insert_events
    (insert_to_db snap "sessions" Stmt.insert_sessions db).db (by decide)
  have heq : load snap db =
      ⟨(insert_to_db snap "event_parents" Stmt.insert_event_parents
          (insert_to_db snap "events" Stmt.insert_events
            (insert_to_db snap "sessions" Stmt.insert_sessions db).db).db).db,
        (insert_to_db snap "event_parents" Stmt.insert_event_parents
          (insert_to_db snap "events" Stmt.insert_events
            (insert_to_db snap "sessions" Stmt.insert_sessions db).db).db).ok⟩ := by
    simp [load, h1, h2]
  rw [heq]
  refine ⟨h3, hroll, ?_⟩
  show (insert_to_db snap "event_parents" Stmt.insert_event_parents
      (insert_to_db snap "events" Stmt.insert_events
        (insert_to_db snap "sessions" Stmt.insert_sessions db).db).db).db.event_parents
    = db.event_parents
  rw [hroll, hf2, hf1]

/-- C1 witness: the amended theorem at the duplicate-edge snapshot on an
empty store; its hypotheses hold there and the event_parents table comes
back empty while the first two tables keep their rows. -/
theorem load_commits_per_table_witness :
    (insert_to_db dupEdgeSnapshot "sessions" Stmt.insert_sessions emptyDB).ok
      = true ∧
    (insert_to_db dupEdgeSnapshot "events" Stmt.insert_events
      (insert_to_db dupEdgeSnapshot "sessions" Stmt.insert_sessions
        emptyDB).db).ok = true ∧
    (insert_to_db dupEdgeSnapshot "event_parents" Stmt.insert_event_parents
      (insert_to_db dupEdgeSnapshot "events" Stmt.insert_events
        (insert_to_db dupEdgeSnapshot "sessions" Stmt.insert_sessions
          emptyDB).db).db).ok = false ∧
    ((load dupEdgeSnapshot emptyDB).ok = false ∧
      (load dupEdgeSnapshot emptyDB).db =
        (insert_to_db dupEdgeSnapshot "events" Stmt.insert_events
          (insert_to_db dupEdgeSnapshot "sessions" Stmt.insert_sessions
            emptyDB).db).db ∧
      (load dupEdgeSnapshot emptyDB).db.event_parents
        = emptyDB.event_parents) :=
  ⟨by decide, by decide, by decide,
    load_commits_per_table dupEdgeSnapshot emptyDB (by decide) (by decide)
      (by decide)⟩

/-- C2 counterexample: the load stage's connection never re-asserts
foreign-key enforcement, so an event row whose session reference names no
existing session is inserted without any failure — the claim says such an
insert must fail. -/
theorem fk_not_enforced_on_load_cex :
    (insert_to_db danglingSnapshot "events" Stmt.insert_events emptyDB).ok
      = true ∧
    (insert_to_db danglingSnapshot "events" Stmt.insert_events
      emptyDB).db.sessions = [] ∧
    (insert_to_db danglingSnapshot "events" Stmt.insert_events
      emptyDB).db.events ≠ [] := by
  refine ⟨by decide, by decide, by decide⟩

/-- C2 amended: referential-constraint enforcement is asserted only on the
connection opened by store initialization (create_db); every connection
opened by the load stage (insert_to_db) leaves enforcement at SQLite's
per-connection default, off, for its whole lifetime. -/
theorem fk_enforced_only_on_init_connection :
    (∀ s : List SchemaObj, (create_db s).fkEnforced = true) ∧
    (∀ (data : Snapshot) (t : String) (stmt : Stmt) (db : DB),
      (insert_to_db data t stmt db).fkEnforced = false) :=
  ⟨fun _ => rfl, fun data t stmt db => (insert_to_db_conn_spec data t stmt db).2.1⟩

/-- C2 witness: the enforcement-flag theorem at the initialization of an
absent store and at the dangling-event insert. -/
theorem fk_enforced_only_on_init_connection_witness :
    (create_db ([] : List SchemaObj)).fkEnforced = true ∧
    (insert_to_db danglingSnapshot "events" Stmt.insert_events
      emptyDB).fkEnforced = false :=
  ⟨fk_enforced_only_on_init_connection.1 [],
    fk_enforced_only_on_init_connection.2 danglingSnapshot "events"
      Stmt.insert_events emptyDB⟩

/-- C3 counterexample: a fully successful run still ends with its staging
temporary file in place — the claim says the resource is released after
successful use. -/
theorem run_job_staging_not_released_cex :
    (run_job demoContainer emptyDB).ok = true ∧
    (run_job demoContainer emptyDB).stagingFiles ≠ [] := by
  refine ⟨by decide, by decide⟩

/-- C3 amended: the staging temporary file is created with delete disabled
and no pipeline stage ever deletes it: whenever the fetch succeeds, the file
still exists when the run ends, on the success path and on every failure
path alike. -/
theorem staging_file_persists (container : List Blob) (db : DB) (blob : Blob)
    (hdl : download_latest_json container = Except.ok blob) :
    (run_job container db).stagingFiles = [blob.content] := by
  simp only [run_job, hdl]
  cases hv : validate blob.content <;> simp [hv]

/-- C3 witness: the persistence theorem at the two-blob demo container. -/
theorem staging_file_persists_witness :
    download_latest_json demoContainer = Except.ok demoBlob2 ∧
    (run_job demoContainer emptyDB).stagingFiles = [demoBlob2.content] :=
  ⟨by decide, staging_file_persists demoContainer emptyDB demoBlob2 (by decide)⟩

/-- C4 counterexample: on a container with no matching object the locator
does fail, but with the AttributeError raised by `latest_blob.name` on None,
not with a NotFoundError — the source defines no such error. -/
theorem locator_empty_not_notfound_cex :
    download_latest_json [] = Except.error FetchError.attributeErrorNoneName ∧
    FetchError.attributeErrorNoneName ≠ FetchError.notFoundError :=
  ⟨rfl, by decide⟩

/-- C4 amended: for every container in which no object's name starts with
"backup_", the locator fails by raising AttributeError (attribute access on
the absent listing result), rather than a NotFoundError. -/
theorem locator_no_match_attribute_error (container : List Blob)
    (h : ∀ b ∈ container, strLeadsWith b.name "backup_" = false) :
    download_latest_json container
      = Except.error FetchError.attributeErrorNoneName := by
  have hl : list_blobs container "backup_" = [] := by
    unfold list_blobs
    refine List.filter_eq_nil_iff.mpr ?_
    intro b hb
    simp [h b hb]
  unfold download_latest_json
  rw [hl]
  rfl

/-- C4 witness: the amended theorem at a container holding one non-matching
object. -/
theorem locator_no_match_attribute_error_witness :
    (∀ b ∈ [otherBlob], strLeadsWith b.name "backup_" = false) ∧
    download_latest_json [otherBlob]
      = Except.error FetchError.attributeErrorNoneName :=
  ⟨by decide, locator_no_match_attribute_error [otherBlob] (by decide)⟩

/-- C5: when the downloaded snapshot fails validation, run_job makes no
insert_to_db call and the store is exactly as it was before the run. -/
theorem failed_validation_blocks_load (container : List Blob) (db : DB)
    (blob : Blob) (hdl : download_latest_json container = Except.ok blob)
    (hv : validate blob.content = false) :
    (run_job container db).loadInvoked = false ∧
    (run_job container db).db = db := by
  simp only [run_job, hdl]
  simp [hv]

/-- C5 witness: the theorem at a container whose only snapshot is missing
its sessions table. -/
theorem failed_validation_blocks_load_witness :
    download_latest_json [invalidBlob] = Except.ok invalidBlob ∧
    validate invalidBlob.content = false ∧
    ((run_job [invalidBlob] emptyDB).loadInvoked = false ∧
      (run_job [invalidBlob] emptyDB).db = emptyDB) :=
  ⟨by decide, by decide,
    failed_validation_blocks_load [invalidBlob] emptyDB invalidBlob
      (by decide) (by decide)⟩

/-- C6: store initialization is idempotent — running the DDL a second time
changes nothing, and starting from a duplicate-free schema it never creates
a duplicate object. -/
theorem create_db_idempotent (s : List SchemaObj) :
    (create_db (create_db s).schema).schema = (create_db s).schema ∧
    (s.Nodup → (create_db s).schema.Nodup) := by
  constructor
  · simp only [create_db_schema]
    exact foldl_apply_noop schemaObjects (schemaObjects.foldl applyIfNotExists s)
      (fun o ho => foldl_apply_mem schemaObjects s o ho)
  · intro h
    simp only [create_db_schema]
    exact foldl_apply_nodup schemaObjects s h

/-- C6 witness: the idempotence theorem at the absent store (empty schema). -/
theorem create_db_idempotent_witness :
    (create_db (create_db ([] : List SchemaObj)).schema).schema
      = (create_db ([] : List SchemaObj)).schema ∧
    (create_db ([] : List SchemaObj)).schema.Nodup :=
  ⟨(create_db_idempotent []).1, (create_db_idempotent []).2 List.nodup_nil⟩

/-- C7: whenever some object matches the "backup_" name filter, the locator
returns (deterministically — it is a function of the listing) a matching
object whose creation timestamp is greatest among all matching objects. -/
theorem download_latest_selects_max (container : List Blob)
    (h : list_blobs container "backup_" ≠ []) :
    ∃ b : Blob, download_latest_json container = Except.ok b ∧
      b ∈ list_blobs container "backup_" ∧
      ∀ b2 ∈ list_blobs container "backup_",
        b2.creation_time ≤ b.creation_time := by
  cases hl : list_blobs container "backup_" with
  | nil => exact absurd hl h
  | cons x xs =>
      obtain ⟨hmem, hle, hall⟩ :=
        foldl_max_spec (fun b => b.creation_time) xs x
      refine ⟨xs.foldl
          (fun acc b => if b.creation_time > acc.creation_time then b else acc)
          x, ?_, ?_, ?_⟩
      · unfold download_latest_json
        rw [hl]
        rfl
      · rcases hmem with h2 | h2
        · rw [h2]
          exact List.mem_cons_self x xs
        · exact List.mem_cons_of_mem x h2
      · intro b2 hb2
        rcases List.mem_cons.mp hb2 with h2 | h2
        · subst h2
          exact hle
        · exact hall b2 h2

/-- C7 witness: with objects backup_20240101T000000 and
backup_20240102T000000 the locator picks one of greatest creation time —
concretely, the second. -/
theorem download_latest_selects_max_witness :
    list_blobs demoContainer "backup_" ≠ [] ∧
    (∃ b : Blob, download_latest_json demoContainer = Except.ok b ∧
      b ∈ list_blobs demoContainer "backup_" ∧
      ∀ b2 ∈ list_blobs demoContainer "backup_",
        b2.creation_time ≤ b.creation_time) ∧
    download_latest_json demoContainer = Except.ok demoBlob2 :=
  ⟨by decide, download_latest_selects_max demoContainer (by decide), by decide⟩

/-- C8: deleting an event referenced as a parent endpoint removes exactly
the edges naming it as parent (cascade), keeps every other edge, keeps every
other event row, and touches no session. -/
theorem delete_parent_event_cascades (db : DB) (eid : Value)
    (_h : ∃ e ∈ db.event_parents, e.parent_id = eid) :
    (∀ e ∈ (deleteEvent db eid).event_parents, e.parent_id ≠ eid) ∧
    (∀ e ∈ db.event_parents, e.parent_id ≠ eid →
      e ∈ (deleteEvent db eid).event_parents) ∧
    (∀ ev ∈ db.events, ev.id ≠ eid → ev ∈ (deleteEvent db eid).events) ∧
    (deleteEvent db eid).sessions = db.sessions := by
  refine ⟨?_, ?_, ?_, rfl⟩
  · intro e he
    simp only [deleteEvent, List.mem_filter] at he
    simpa using he.2
  · intro e he hne
    simp only [deleteEvent, List.mem_filter]
    exact ⟨he, by simpa using hne⟩
  · intro ev hev hne
    simp only [deleteEvent, List.mem_filter]
    exact ⟨hev, by simpa using hne⟩

/-- C8 witness: the cascade theorem on the mock-data store, deleting event
e1 which is the parent of the only edge. -/
theorem delete_parent_event_cascades_witness :
    (∃ e ∈ demoDB.event_parents, e.parent_id = Value.str "e1") ∧
    ((∀ e ∈ (deleteEvent demoDB (Value.str "e1")).event_parents,
        e.parent_id ≠ Value.str "e1") ∧
      (∀ e ∈ demoDB.event_parents, e.parent_id ≠ Value.str "e1" →
        e ∈ (deleteEvent demoDB (Value.str "e1")).event_parents) ∧
      (∀ ev ∈ demoDB.events, ev.id ≠ Value.str "e1" →
        ev ∈ (deleteEvent demoDB (Value.str "e1")).events) ∧
      (deleteEvent demoDB (Value.str "e1")).sessions = demoDB.sessions) :=
  ⟨by decide, delete_parent_event_cascades demoDB (Value.str "e1") (by decide)⟩

/-- C9: each insert_to_db call closes its connection on every exit path, and
when any row insertion fails the call's uncommitted work is rolled back so
the durable store is exactly the input store. -/
theorem insert_to_db_rolls_back_and_closes (data : Snapshot) (t : String)
    (stmt : Stmt) (db : DB) :
    (insert_to_db data t stmt db).connClosed = true ∧
    ((insert_to_db data t stmt db).ok = false →
      (insert_to_db data t stmt db).db = db) :=
  ⟨(insert_to_db_conn_spec data t stmt db).1,
    (insert_to_db_conn_spec data t stmt db).2.2⟩

/-- C9 witness: the theorem at a snapshot whose sessions table repeats an
id; the call fails and leaves the empty store empty, connection closed. -/
theorem insert_to_db_rolls_back_and_closes_witness :
    ((insert_to_db dupSessionSnapshot "sessions" Stmt.insert_sessions
        emptyDB).connClosed = true ∧
      ((insert_to_db dupSessionSnapshot "sessions" Stmt.insert_sessions
          emptyDB).ok = false →
        (insert_to_db dupSessionSnapshot "sessions" Stmt.insert_sessions
          emptyDB).db = emptyDB)) ∧
    (insert_to_db dupSessionSnapshot "sessions" Stmt.insert_sessions
      emptyDB).ok = false :=
  ⟨insert_to_db_rolls_back_and_closes dupSessionSnapshot "sessions"
      Stmt.insert_sessions emptyDB,
    by decide⟩

/-- C10: insert_to_db binds parameters positionally from the row's field
order — two rows with the same values in the same order but different field
names are treated identically — and a sessions row whose fields are
serialized in a different order than the statement's columns is inserted
without error with its values bound to the wrong columns (the value of the
start_ts field lands in the id column). -/
theorem insert_to_db_binds_by_position :
    (∀ (t : String) (stmt : Stmt) (db : DB) (row row2 : Row),
        rowParams row = rowParams row2 →
        insert_to_db [(t, [row])] t stmt db
          = insert_to_db [(t, [row2])] t stmt db) ∧
    (∀ a b c : Value,
        (insert_to_db
            [("sessions", [[("start_ts", a), ("id", b), ("metadata", c)]])]
            "sessions" Stmt.insert_sessions emptyDB).ok = true ∧
        (insert_to_db
            [("sessions", [[("start_ts", a), ("id", b), ("metadata", c)]])]
            "sessions" Stmt.insert_sessions emptyDB).db.sessions
          = [⟨a, b, c⟩]) := by
  constructor
  · intro t stmt db row row2 h
    have hl : ∀ rs : List Row, lookupTable [(t, rs)] t = rs := by
      intro rs
      unfold lookupTable
      simp [List.find?]
    unfold insert_to_db
    rw [hl, hl]
    have he : execRows (connect db) stmt [row]
        = execRows (connect db) stmt [row2] := by
      unfold execRows
      rw [h]
    rw [he]
  · intro a b c
    exact ⟨rfl, rfl⟩

/-- C10 witness: same values under different field names give the same
call outcome. -/
theorem insert_to_db_binds_by_position_witness :
    rowParams [("id", Value.str "v1"), ("start_ts", Value.str "v2"),
        ("metadata", Value.str "v3")]
      = rowParams [("f1", Value.str "v1"), ("f2", Value.str "v2"),
        ("f3", Value.str "v3")] ∧
    insert_to_db
        [("sessions", [[("id", Value.str "v1"), ("start_ts", Value.str "v2"),
          ("metadata", Value.str "v3")]])]
        "sessions" Stmt.insert_sessions emptyDB
      = insert_to_db
        [("sessions", [[("f1", Value.str "v1"), ("f2", Value.str "v2"),
          ("f3", Value.str "v3")]])]
        "sessions" Stmt.insert_sessions emptyDB :=
  ⟨by decide,
    insert_to_db_binds_by_position.1 "sessions" Stmt.insert_sessions emptyDB
      [("id", Value.str "v1"), ("start_ts", Value.str "v2"),
        ("metadata", Value.str "v3")]
      [("f1", Value.str "v1"), ("f2", Value.str "v2"),
        ("f3", Value.str "v3")] (by decide)⟩

end EtlFlow
